import Mathlib

/-!
Verification development for the cryptocurrency menu/command-dispatch
subsystem of the GamestonkTerminal fork.  The definitions below are a
shallow embedding of the Python sources under
`gamestonk_terminal/cryptocurrency/`:

* `crypto_controller.py` — the `CryptoController` class and its `menu` loop;
* `__init__.py` — the provider-dispatching `load` function;
* `due_dilligence/dd_controller.py` — the due-diligence `Controller`;
* `due_dilligence/coinpaprika_view.py` — the CoinPaprika table views;
* `defirate_view.py` — the DeFi-rate scraper helpers (`replace_pct`).

External collaborators (the market-data HTTP clients, the plotting and
table-printing libraries, and the repository helpers that are not part of
the sources here) are modelled as explicit oracle parameters or as small
functions whose doc comments state what they stand for.  Python exceptions
are modelled with an explicit error type, and the mutable controller
object with explicit state passing.
-/

deriving instance DecidableEq for Except

namespace GT

/-- Python exception classes that appear in the sources.  `systemExit`
(`SystemExit`) is *not* a subclass of `Exception` in Python, so the
ubiquitous `except Exception` handlers do not catch it; the embedding keeps
it as a separate constructor so each `try/except` can be translated
clause by clause. -/
inductive PyExc
  | typeError
  | valueError
  | keyError
  | indexError
  | systemExit
  | otherError
deriving DecidableEq, Repr

/-- Python values that flow through the controller state: `None`, strings,
numbers, the pycoingecko `Coin` instance produced by `gecko.Coin(...)`
(carrying its `coin_symbol`), and opaque objects (such as the DataFrame
slot of the Binance `load` tuple) that the code never inspects. -/
inductive PyVal
  | vNone
  | vStr (s : String)
  | vNum (q : ℚ)
  | vCoinObj (coin_symbol : String)
  | vObj (tag : String)
deriving DecidableEq, Repr

/-- Python truthiness for the values above: `None` is falsy, a string is
truthy iff non-empty, a number iff non-zero, and plain objects (a `Coin`
instance defines neither `__bool__` nor `__len__`) are always truthy. -/
def PyVal.truthy : PyVal → Bool
  | .vNone => false
  | .vStr s => s ≠ ""
  | .vNum q => q ≠ 0
  | .vCoinObj _ => true
  | .vObj _ => true

/-- A pandas `DataFrame` as the sources use it: an ordered list of column
names and rows of cells.  (The sources never rely on the DataFrame index
beyond plotting, which is out of scope.) -/
structure Table where
  cols : List String
  rows : List (List PyVal)
deriving DecidableEq, Repr

/-- `pd.DataFrame()` — the empty frame used to initialise and clear the
controller's `current_df`. -/
def emptyTable : Table := ⟨[], []⟩

/-! ### String primitives

The embedding works on `String.data` character lists with its own little
library of string operations (splitting, prefix/suffix tests, case
mapping, lexicographic comparison).  They implement exactly the Python
`str` methods named in their doc comments; they are spelled out here
rather than borrowed from the core library so that every definition in
this file evaluates by kernel reduction on concrete inputs. -/

/-- Split a character list at every occurrence of `sep` (the pieces keep
their order; separators are dropped).  `acc` holds the current piece
reversed. -/
def splitOnCharAux (sep : Char) : List Char → List Char → List (List Char)
  | [], acc => [acc.reverse]
  | c :: cs, acc =>
    if c = sep then acc.reverse :: splitOnCharAux sep cs []
    else splitOnCharAux sep cs (c :: acc)

def splitOnChar (sep : Char) (cs : List Char) : List (List Char) :=
  splitOnCharAux sep cs []

/-- `s.startswith(p)`. -/
def strStartsWith (s p : String) : Bool := p.data.isPrefixOf s.data

/-- `s.endswith(p)`. -/
def strEndsWith (s p : String) : Bool := p.data.isSuffixOf s.data

/-- `s.lower()`. -/
def strToLower (s : String) : String := String.mk (s.data.map Char.toLower)

/-- `s.upper()`. -/
def strToUpper (s : String) : String := String.mk (s.data.map Char.toUpper)

/-- Lexicographic `≤` on character lists (Python string comparison). -/
def lexLe : List Char → List Char → Bool
  | [], _ => true
  | _ :: _, [] => false
  | a :: as, b :: bs => if a = b then lexLe as bs else decide (a < b)

/-- The numeric value of a decimal digit string. -/
def natOfDigits (cs : List Char) : ℕ :=
  cs.foldl (fun a c => 10 * a + (c.toNat - 48)) 0

def allDigits (cs : List Char) : Bool := cs.all Char.isDigit

/-- The whitespace CPython's `float(...)` discards around a literal
(`Py_UNICODE_ISSPACE`): the ASCII controls and space, NEL, and the
Unicode space separators. -/
def isSpaceChar (c : Char) : Bool :=
  let n := c.toNat
  (0x09 ≤ n && n ≤ 0x0D) || (0x1C ≤ n && n ≤ 0x1F) || n = 0x20 || n = 0x85 ||
    n = 0xA0 || n = 0x1680 || (0x2000 ≤ n && n ≤ 0x200A) || n = 0x2028 ||
    n = 0x2029 || n = 0x202F || n = 0x205F || n = 0x3000

def trimChars (cs : List Char) : List Char :=
  ((cs.dropWhile isSpaceChar).reverse.dropWhile isSpaceChar).reverse

/-- `str.split()` with no separator, applied to one input line: split on
blanks and drop empty fields. -/
def tokenize (s : String) : List String :=
  ((splitOnChar ' ' s.data).map String.mk).filter (· ≠ "")

/-- argparse classifies an argument string as an option when it begins with
`-` (a lone `-` counts as a positional).  The controllers register no
negative-number-like options, so this is the classification their parsers
use for the inputs considered here. -/
def isOptionLike (t : String) : Bool :=
  strStartsWith t "-" && t ≠ "-"

/-- The first positional-looking token of an argument list, together with
the remaining tokens in order (argparse's `parse_known_args` hands them
back as the unrecognised rest). -/
def splitCmd : List String → Option (String × List String)
  | [] => none
  | t :: ts =>
    if isOptionLike t then (splitCmd ts).map (fun p => (p.1, t :: p.2))
    else some (t, ts)

/-- `parser.parse_known_args(tokens)` for a parser whose single registered
argument is the positional `cmd` with a `choices` list (the shape both
controllers build in their constructors).  A missing `cmd` or a token
outside `choices` makes argparse print an error and call `sys.exit(2)`,
i.e. raise `SystemExit`. -/
def parseCmdToken (choices : List String) (tokens : List String) :
    Except PyExc (String × List String) :=
  match splitCmd tokens with
  | none => .error .systemExit
  | some (c, rest) =>
    if c ∈ choices then .ok (c, rest) else .error .systemExit

/-- Unpacking a Python sequence into two assignment targets
(`a, b = seq`): succeeds only when the sequence has exactly two elements,
otherwise CPython raises `ValueError` ("too many/not enough values to
unpack") before storing into any target. -/
def unpack2 (l : List PyVal) : Except PyExc (PyVal × PyVal) :=
  match l with
  | [a, b] => .ok (a, b)
  | _ => .error .valueError

/-! ## Session state

Both `CryptoController` (crypto_controller.py) and the due-diligence
`Controller` (dd_controller.py) carry the same four instance fields, the
spec's Session State. -/

structure SessionState where
  current_coin : PyVal
  current_df : Option Table
  current_currency : PyVal
  source : PyVal
deriving DecidableEq, Repr

/-- `CryptoController.__init__`: `current_coin = ""`,
`current_df = pd.DataFrame()`, `current_currency = None`, `source = ""`. -/
def initCryptoState : SessionState :=
  { current_coin := .vStr "", current_df := some emptyTable,
    current_currency := .vNone, source := .vStr "" }

/-! ## External collaborators of the crypto controller

Everything the controller calls that lives outside the five source files
(the three market-data adapters, the technical-analysis sub-menu and the
sibling menu controllers) is collected in one oracle record. -/

structure Providers where
  /-- `gecko.Coin(ns_parser.coin)` — pycoingecko resolution; raises
  `KeyError` when the identifier matches no coin. -/
  geckoCoin : Option String → Except PyExc PyVal
  /-- `binance.select_binance_coin(other_args)` — returns the
  `(coin, currency, df)` triple. -/
  binanceSelect : List String → Except PyExc (PyVal × PyVal × PyVal)
  /-- `paprika.validate_coin(coin, COINS_DCT)` — fuzzy resolution against
  the CoinPaprika coin list; returns the `(coin_id, symbol)` pair. -/
  paprikaValidate : Option String → Except PyExc (PyVal × PyVal)
  /-- `pycoingecko_view.ta(coin, other_args)` — returns `(df, currency)`,
  both possibly `None`. -/
  geckoTa : List String → Except PyExc (Option Table × PyVal)
  /-- `binance_model.ta(coin, other_args)` — returns
  `(coin, currency, df)`. -/
  binanceTa : List String → Except PyExc (PyVal × PyVal × Table)
  /-- `coinpaprika_model.get_ohlc_historical(coin_id, vs, days)`. -/
  paprikaOhlc : PyVal → String → ℕ → Except PyExc Table
  /-- Return value of the nested `ta_controller.menu(...)` session. -/
  taMenu : Except PyExc Bool
  /-- Return value of `dd_controller.menu(coin, source)`. -/
  ddMenuRet : Except PyExc Bool
  /-- Return value of `overview_controller.menu()`. -/
  ovMenuRet : Except PyExc Bool
  /-- Return value of `discovery_controller.menu()`. -/
  discMenuRet : Except PyExc Bool
  /-- Effect of `pycoingecko_view.chart(coin, other_args)`. -/
  geckoChart : Except PyExc Unit
  /-- Effect of `binance_model.chart(coin, other_args)`. -/
  binanceChart : Except PyExc Unit
  /-- Effect of `finbrain_crypto_view.crypto_sentiment_analysis(...)`. -/
  finbrainView : Except PyExc Unit

/-! ## Argument parsing for the `load` command (`__init__.py`) -/

/-- The options record argparse builds for `load`'s parser:
`-c or --coin` (string, required unless `-h` is given) and `--source`
(choices `cp`/`cg`/`bin`, default `cg`). -/
structure LoadNs where
  coin : Option String
  source : String
deriving DecidableEq, Repr

/-- Scanning the tokens against `load`'s two registered options.  Unknown
tokens become `parse_known_args` leftovers (the helper only warns about
them); a flag missing its value, an option-like value, or a `--source`
outside its `choices` is an argparse usage error (`SystemExit`). -/
def scanLoad : List String → Option String → Option String → Except PyExc LoadNs
  | [], coin, src =>
    match coin with
    | none => .error .systemExit
    | some c => .ok { coin := some c, source := src.getD "cg" }
  | "-c" :: v :: rest, _, src =>
    if isOptionLike v then .error .systemExit else scanLoad rest (some v) src
  | "--coin" :: v :: rest, _, src =>
    if isOptionLike v then .error .systemExit else scanLoad rest (some v) src
  | "--source" :: v :: rest, coin, _ =>
    if v ∈ (["cp", "cg", "bin"] : List String) then scanLoad rest coin (some v)
    else .error .systemExit
  | ["-c"], _, _ => .error .systemExit
  | ["--coin"], _, _ => .error .systemExit
  | ["--source"], _, _ => .error .systemExit
  | _ :: rest, coin, src => scanLoad rest coin src

/-- Modelled from the spec: the Argument Parser helper
`helper_funcs.parse_known_args_and_warn` is repository code outside the
sources here; per the spec it "turns a tokenized command line into a
validated options record or reports a usage error".  It registers `-h`,
returns `None` (here `Option.none`) when help was requested, warns about
leftover tokens, and otherwise returns the parsed record; parse failures
surface as argparse's `SystemExit`. -/
def parseLoadArgs (args : List String) : Except PyExc (Option LoadNs) :=
  if args.contains "-h" then .ok none
  else (scanLoad args none none).map some

/-- The `if not other_args[0][0] == "-": other_args.insert(0, "-c")`
preprocessing shared by `load` in `__init__.py` and
`coinpaprika_view.load`. -/
def insertCoinFlag (other_args : List String) : List String :=
  match other_args with
  | [] => []
  | a :: rest => if strStartsWith a "-" then a :: rest else "-c" :: a :: rest

/-- The options record for `coinpaprika_view.load`'s parser, which
registers only `-c or --coin` (required unless `-h` is present). -/
def scanPaprikaLoad : List String → Option String → Except PyExc (Option String)
  | [], coin => if coin.isSome then .ok coin else .error .systemExit
  | "-c" :: v :: rest, _ =>
    if isOptionLike v then .error .systemExit else scanPaprikaLoad rest (some v)
  | "--coin" :: v :: rest, _ =>
    if isOptionLike v then .error .systemExit else scanPaprikaLoad rest (some v)
  | ["-c"], _ => .error .systemExit
  | ["--coin"], _ => .error .systemExit
  | _ :: rest, coin => scanPaprikaLoad rest coin

/-- `coinpaprika_view.load(other_args)` (coinpaprika_view.py, the
CoinPaprika provider's `load`): parses `-c or --coin`, resolves it through
`validate_coin` against the module-level coin dictionary, and returns the
coin id when truthy.  All of `SystemExit` and `Exception` are caught, and
every failure path falls through to Python's implicit `None`. -/
def paprikaViewLoad (validate : Option String → Except PyExc (PyVal × PyVal))
    (other_args : List String) : PyVal :=
  let args := insertCoinFlag other_args
  if args.contains "-h" then .vNone
  else
    match scanPaprikaLoad args none with
    | .error _ => .vNone
    | .ok coin =>
      match validate coin with
      | .error _ => .vNone
      | .ok (coin_id, _) => if coin_id.truthy then coin_id else .vNone

/-- `load(other_args)` from `cryptocurrency/__init__.py`.  Every path —
including all three `except` clauses — returns a 4-tuple, modelled as a
4-element list.  The Binance DataFrame element is opaque to this function
(it is only ever unpacked by the caller), hence `PyVal.vObj`-typed
oracle output. -/
def load (prov : Providers) (other_args : List String) : List PyVal :=
  let args := insertCoinFlag other_args
  match parseLoadArgs args with
  | .error _ => [.vNone, .vNone, .vNone, .vNone]
  | .ok none => [.vNone, .vNone, .vNone, .vNone]
  | .ok (some ns) =>
    if ns.source = "cg" then
      match prov.geckoCoin ns.coin with
      | .ok c => [c, .vNone, .vNone, .vStr ns.source]
      | .error _ => [.vNone, .vNone, .vNone, .vNone]
    else if ns.source = "bin" then
      match prov.binanceSelect args with
      | .ok (c, cur, df) => [c, cur, df, .vStr ns.source]
      | .error _ => [.vNone, .vNone, .vNone, .vNone]
    else if ns.source = "cp" then
      [paprikaViewLoad prov.paprikaValidate args, .vNone, .vNone, .vStr ns.source]
    else [.vNone, .vNone, .vNone, .vNone]

/-! ## Table sorting and column operations (pandas as the views use it) -/

/-- An arbitrary rank used to order cells of different Python types; the
views only ever sort homogeneous columns, where `leB` compares the
values themselves. -/
def PyVal.rank : PyVal → ℕ
  | .vNone => 0
  | .vNum _ => 1
  | .vStr _ => 2
  | .vCoinObj _ => 3
  | .vObj _ => 4

/-- The cell comparison behind `df.sort_values`: numbers by `≤` on ℚ,
strings lexicographically. -/
def PyVal.leB (a b : PyVal) : Bool :=
  match a, b with
  | .vNum x, .vNum y => decide (x ≤ y)
  | .vStr x, .vStr y => lexLe x.data y.data
  | .vCoinObj x, .vCoinObj y => lexLe x.data y.data
  | .vObj x, .vObj y => lexLe x.data y.data
  | x, y => decide (x.rank ≤ y.rank)

/-- Insert `a` after every element `b` with `le b a`; the building block of
a stable insertion sort. -/
def insertLe (le : α → α → Bool) (a : α) : List α → List α
  | [] => [a]
  | b :: bs => if le b a then b :: insertLe le a bs else a :: b :: bs

/-- Stable sort (earlier elements stay first among ties).  The spec
describes the Presentation sort as stable; the tie order of pandas'
default quicksort is unspecified and no property here depends on it. -/
def stableSort (le : α → α → Bool) (l : List α) : List α :=
  l.foldl (fun acc a => insertLe le a acc) []

/-- `df.sort_values(by=key, ascending=asc)`: sorting by a column that does
not exist raises `KeyError`. -/
def Table.sortValues (t : Table) (key : String) (ascending : Bool) :
    Except PyExc Table :=
  match t.cols.findIdx? (· == key) with
  | none => .error .keyError
  | some i =>
    let le : List PyVal → List PyVal → Bool := fun r1 r2 =>
      PyVal.leB (r1.getD i .vNone) (r2.getD i .vNone)
    .ok ⟨t.cols, stableSort (if ascending then le else fun a b => le b a) t.rows⟩

/-- `df.drop(col, axis=1)`: removing a column that does not exist raises
`KeyError`. -/
def Table.dropCol (t : Table) (c : String) : Except PyExc Table :=
  match t.cols.findIdx? (· == c) with
  | none => .error .keyError
  | some i => .ok ⟨t.cols.eraseIdx i, t.rows.map (·.eraseIdx i)⟩

/-- `df[sel]` for a list of column labels: projects the named columns in
the given order, raising `KeyError` when one is missing. -/
def Table.selectCols (t : Table) (sel : List String) : Except PyExc Table :=
  if sel.all (fun c => t.cols.contains c) then
    .ok ⟨sel, t.rows.map (fun r =>
      sel.map (fun c => r.getD ((t.cols.findIdx? (· == c)).getD 0) .vNone))⟩
  else .error .keyError

/-- Applying a fallible cell function to one column
(`df[c] = df[c].apply(f)`); a missing column raises `KeyError`. -/
def Table.mapCol (t : Table) (c : String) (f : PyVal → Except PyExc PyVal) :
    Except PyExc Table :=
  match t.cols.findIdx? (· == c) with
  | none => .error .keyError
  | some i =>
    (t.rows.mapM (fun r =>
      (f (r.getD i .vNone)).map (fun v => r.set i v))).map (fun rs => ⟨t.cols, rs⟩)

/-! ## The shared view argument scanner (coinpaprika_view.py)

Each CoinPaprika view builds an `argparse.ArgumentParser` from the same
few option shapes (`-t/top`, `-s/sort` with choices, `--descend`,
`-l/links`, `--vs` with choices, `-d/days`) and hands it to the external
helper `parse_known_args_and_warn`.  `ArgSpec` records which options a
particular view registers; unregistered tokens are `parse_known_args`
leftovers that the helper merely warns about. -/

structure ViewOpts where
  top : ℕ
  sortby : String
  descend : Bool
  links : Bool
  vs : String
  days : ℕ
deriving DecidableEq, Repr

structure ArgSpec where
  hasTop : Bool
  sortChoices : Option (List String)
  hasDescend : Bool
  hasLinks : Bool
  vsChoices : Option (List String)
  hasDays : Bool
deriving DecidableEq, Repr

/-- Modelled from the spec: `helper_funcs.check_positive` (repository code
outside these sources) validates an integer argument, reporting a usage
error unless it parses and is strictly positive. -/
def parsePositive (s : String) : Option ℕ :=
  if s.data ≠ [] ∧ s.data.all Char.isDigit then
    (if 0 < natOfDigits s.data then some (natOfDigits s.data) else none)
  else none

/-- One pass over the tokens against the registered options.  A value flag
at the end of the line, a non-positive or non-numeric count, or a value
outside a `choices` list is an argparse usage error (`SystemExit`);
`--descend` stores `False` (`action="store_false"`) and `-l` or `--links`
stores `True`. -/
def scanView (spec : ArgSpec) : List String → ViewOpts → Except PyExc ViewOpts
  | [], o => .ok o
  | [t], o =>
    if spec.hasTop && (t == "-t" || t == "--top") then .error .systemExit
    else if spec.sortChoices.isSome && (t == "-s" || t == "--sort") then
      .error .systemExit
    else if spec.vsChoices.isSome && t == "--vs" then .error .systemExit
    else if spec.hasDays && (t == "-d" || t == "--days") then .error .systemExit
    else if spec.hasDescend && t == "--descend" then .ok { o with descend := false }
    else if spec.hasLinks && (t == "-l" || t == "--links") then
      .ok { o with links := true }
    else .ok o
  | t :: v :: rest, o =>
    if spec.hasTop && (t == "-t" || t == "--top") then
      match parsePositive v with
      | some n => scanView spec rest { o with top := n }
      | none => .error .systemExit
    else if spec.sortChoices.isSome && (t == "-s" || t == "--sort") then
      if v ∈ spec.sortChoices.getD [] then scanView spec rest { o with sortby := v }
      else .error .systemExit
    else if spec.vsChoices.isSome && t == "--vs" then
      if v ∈ spec.vsChoices.getD [] then scanView spec rest { o with vs := v }
      else .error .systemExit
    else if spec.hasDays && (t == "-d" || t == "--days") then
      match parsePositive v with
      | some n => scanView spec rest { o with days := n }
      | none => .error .systemExit
    else if spec.hasDescend && t == "--descend" then
      scanView spec (v :: rest) { o with descend := false }
    else if spec.hasLinks && (t == "-l" || t == "--links") then
      scanView spec (v :: rest) { o with links := true }
    else scanView spec (v :: rest) o

/-- Modelled from the spec: `helper_funcs.parse_known_args_and_warn`
applied to a view parser — returns no record when `-h` asks for help,
otherwise the validated options; argparse usage errors surface as
`SystemExit`, which the views' `except Exception` clauses do *not*
catch. -/
def parseView (spec : ArgSpec) (dflt : ViewOpts) (args : List String) :
    Except PyExc (Option ViewOpts) :=
  if args.contains "-h" then .ok none
  else (scanView spec args dflt).map some

/-! ## CoinPaprika OHLC views: `ta` and `chart` (coinpaprika_view.py) -/

/-- The parser shared by `coinpaprika_view.chart` and
`coinpaprika_view.ta`: `--vs` with choices `usd`, `btc`, `BTC`, `USD`
(default `usd`) and `-d` or `--days` positive (default 30). -/
def vsDaysSpec : ArgSpec :=
  { hasTop := false, sortChoices := none, hasDescend := false,
    hasLinks := false, vsChoices := some ["usd", "btc", "BTC", "USD"],
    hasDays := true }

def vsDaysDefaults : ViewOpts :=
  { top := 0, sortby := "", descend := false, links := false,
    vs := "usd", days := 30 }

/-- The OHLC reshaping both `chart` and `ta` perform: drop `time_close`
and `market_cap`, rename the remaining columns to
`Time0, Open, High, Low, Close, Volume` (a width mismatch raises
`ValueError`), then move `Time0` out of the columns into the index.  The
`pd.to_datetime` index itself is presentation detail not modelled. -/
def paprikaTransform (d : Table) : Except PyExc Table := do
  let d1 ← d.dropCol "time_close"
  let d2 ← d1.dropCol "market_cap"
  if d2.cols.length = 6 then
    Table.dropCol ⟨["Time0", "Open", "High", "Low", "Close", "Volume"], d2.rows⟩ "Time0"
  else .error .valueError

/-- `coinpaprika_view.ta(coin_id, other_args)`: parses `--vs`/`--days`,
fetches OHLC history, reshapes it, and returns `(df, vs)`; every failure
path (`SystemExit`, empty result, any `Exception` from the fetch or the
reshape) prints and returns `(None, None)`. -/
def coinpaprikaViewTa (ohlc : PyVal → String → ℕ → Except PyExc Table)
    (coin : PyVal) (other_args : List String) : Option Table × PyVal :=
  match parseView vsDaysSpec vsDaysDefaults other_args with
  | .error _ => (none, .vNone)
  | .ok none => (none, .vNone)
  | .ok (some o) =>
    match ohlc coin (strToUpper o.vs) o.days with
    | .error _ => (none, .vNone)
    | .ok df =>
      if df.rows.isEmpty then (none, .vNone)
      else
        match paprikaTransform df with
        | .error _ => (none, .vNone)
        | .ok d2 => (some d2, .vStr o.vs)

/-- `coinpaprika_view.chart(coin_id, other_args)`: same parse, fetch and
reshape as `ta`, then hands the frame to the external candlestick plotter
(the volume rescaling and the plot itself are Presentation, out of
scope).  It catches both `SystemExit` and `Exception`, so it never raises
and touches no controller state; the value returned is the frame it would
plot, `none` on any bail-out. -/
def coinpaprikaViewChart (ohlc : PyVal → String → ℕ → Except PyExc Table)
    (coin : PyVal) (other_args : List String) : Option Table :=
  match parseView vsDaysSpec vsDaysDefaults other_args with
  | .error _ => none
  | .ok none => none
  | .ok (some o) =>
    match ohlc coin (strToUpper o.vs) o.days with
    | .error _ => none
    | .ok df =>
      if df.rows.isEmpty then none
      else
        match paprikaTransform df with
        | .error _ => none
        | .ok d2 => some d2

/-! ## CryptoController command handlers (crypto_controller.py)

Each `call_*` method is a function from the controller state and the
leftover tokens to the new state paired with the Python outcome: `ok none`
for a handler that returns `None` (stay in the menu), `ok (some false)`
for `q`, `ok (some true)` for `quit`, and `error e` for an exception that
escapes the handler. -/

/-- A handler dispatching to a sibling menu (`call_ov`, `call_disc`):
returns whatever the sub-menu returned, never touching this controller's
state. -/
def subMenu (st : SessionState) (r : Except PyExc Bool) :
    SessionState × Except PyExc (Option Bool) :=
  match r with
  | .ok b => (st, .ok (some b))
  | .error e => (st, .error e)

/-- `CryptoController.call_load`: `self.current_coin, self.source =
load(other_args)` inside `try/except TypeError`.  `load` always produces
a 4-tuple, so the 2-target unpacking raises `ValueError` before either
attribute is stored; the `except TypeError` clause (written for the
pre-4-tuple version, whose `None` return would raise `TypeError` here)
does not match it. -/
def call_load (prov : Providers) (st : SessionState) (other_args : List String) :
    SessionState × Except PyExc (Option Bool) :=
  match unpack2 (load prov other_args) with
  | .ok (a, b) => ({ st with current_coin := a, source := b }, .ok none)
  | .error .typeError => (st, .ok none)
  | .error e => (st, .error e)

/-- `CryptoController.call_chart`: with a coin loaded, dispatch on the
provider tag to the matching chart view; otherwise print a hint.  No
branch assigns to any state field. -/
def call_chart (prov : Providers) (st : SessionState) (other_args : List String) :
    SessionState × Except PyExc (Option Bool) :=
  if st.current_coin.truthy then
    if st.source = .vStr "cg" then
      match prov.geckoChart with
      | .ok _ => (st, .ok none)
      | .error e => (st, .error e)
    else if st.source = .vStr "bin" then
      match prov.binanceChart with
      | .ok _ => (st, .ok none)
      | .error e => (st, .error e)
    else if st.source = .vStr "cp" then
      let _ := coinpaprikaViewChart prov.paprikaOhlc st.current_coin other_args
      (st, .ok none)
    else (st, .ok none)
  else (st, .ok none)

/-- `self.current_df[["price"]].rename(columns={"price": "Close"})` in the
CoinGecko branch of `call_ta`: selects the `price` column (raising
`KeyError` when missing) under the new name `Close`. -/
def selectPriceClose (d : Table) : Except PyExc Table :=
  match d.cols.findIdx? (· == "price") with
  | none => .error .keyError
  | some i => .ok ⟨["Close"], d.rows.map (fun r => [r.getD i .vNone])⟩

/-- The `quit = ta_controller.menu(...)` tail shared by the three branches
of `call_ta`: runs the nested menu inside `try/except (ValueError,
KeyError)`; a `True` return propagates as `return quit`, anything else
falls through to `None`. -/
def runTaMenu (st : SessionState) (r : Except PyExc Bool) :
    SessionState × Except PyExc (Option Bool) :=
  match r with
  | .ok true => (st, .ok (some true))
  | .ok false => (st, .ok none)
  | .error .valueError => (st, .ok none)
  | .error .keyError => (st, .ok none)
  | .error e => (st, .error e)

/-- `CryptoController.call_ta`: fetches a technical-analysis frame from
the loaded coin's provider, *assigning the result to the session state*
(`current_df`, `current_currency`, and for Binance also `current_coin`),
then opens the nested ta menu.  `start=self.current_df.index[0]` raises
`IndexError` on an empty CoinGecko frame, which `except (ValueError,
KeyError)` does not catch. -/
def call_ta (prov : Providers) (st : SessionState) (other_args : List String) :
    SessionState × Except PyExc (Option Bool) :=
  if st.current_coin.truthy then
    if st.source = .vStr "cg" then
      match prov.geckoTa other_args with
      | .error e => (st, .error e)
      | .ok (odf, cur) =>
        let st1 := { st with current_df := odf, current_currency := cur }
        match odf with
        | none => (st1, .ok none)
        | some d =>
          match selectPriceClose d with
          | .error _ => (st1, .ok none)
          | .ok d2 =>
            let st2 := { st1 with current_df := some d2 }
            if d2.rows.isEmpty then (st2, .error .indexError)
            else runTaMenu st2 prov.taMenu
    else if st.source = .vStr "bin" then
      match prov.binanceTa other_args with
      | .error e => (st, .error e)
      | .ok (c, cur, d) =>
        let st1 := { st with current_coin := c, current_currency := cur,
                             current_df := some d }
        if cur ≠ .vStr "" ∧ ¬ d.rows.isEmpty then runTaMenu st1 prov.taMenu
        else (st1, .ok none)
    else if st.source = .vStr "cp" then
      let _ := coinpaprikaViewTa prov.paprikaOhlc st.current_coin other_args
      match coinpaprikaViewTa prov.paprikaOhlc st.current_coin other_args with
      | (odf, cur) =>
        let st1 := { st with current_df := odf, current_currency := cur }
        match odf with
        | none => (st1, .ok none)
        | some _ => runTaMenu st1 prov.taMenu
    else (st, .ok none)
  else (st, .ok none)

/-- `CryptoController.call_clear`: with a coin loaded, reset all four
fields (`None`, `None`, `pd.DataFrame()`, `""`); otherwise only print. -/
def call_clear (st : SessionState) : SessionState × Except PyExc (Option Bool) :=
  if st.current_coin.truthy then
    ({ current_coin := .vNone, current_df := some emptyTable,
       current_currency := .vNone, source := .vStr "" }, .ok none)
  else (st, .ok none)

/-- `CryptoController.call_dd`: with a coin loaded, return the result of
the due-diligence sub-menu; otherwise print a hint and return `None`. -/
def call_dd (prov : Providers) (st : SessionState) :
    SessionState × Except PyExc (Option Bool) :=
  if st.current_coin.truthy then subMenu st prov.ddMenuRet
  else (st, .ok none)

/-- `CryptoController.call_finbrain`: delegates to the external sentiment
view. -/
def call_finbrain (prov : Providers) (st : SessionState) :
    SessionState × Except PyExc (Option Bool) :=
  match prov.finbrainView with
  | .ok _ => (st, .ok none)
  | .error e => (st, .error e)

/-- `CryptoController.CHOICES`, in source order. -/
def CHOICES : List String :=
  ["?", "cls", "help", "q", "quit", "finbrain", "ta", "load", "clear",
   "chart", "dd", "ov", "disc"]

/-- `CryptoController.switch(an_input)`: empty input prints and stays;
otherwise `parse_known_args` resolves the command token against
`CHOICES` (an unknown token raises `SystemExit`), `?` and `cls` are
handled inline, and the rest dispatch through `getattr(self, "call_" +
cmd, lambda: "Command not recognized!")(other_args)` — since every
element of `CHOICES` has a `call_` method, the zero-argument fallback
lambda (whose invocation with an argument would raise `TypeError`) is
unreachable here. -/
def cryptoSwitch (prov : Providers) (st : SessionState) (an_input : String) :
    SessionState × Except PyExc (Option Bool) :=
  if an_input = "" then (st, .ok none)
  else
    match parseCmdToken CHOICES (tokenize an_input) with
    | .error e => (st, .error e)
    | .ok (cmd, other_args) =>
      if cmd = "?" then (st, .ok none)
      else if cmd = "cls" then (st, .ok none)
      else if cmd = "help" then (st, .ok none)
      else if cmd = "q" then (st, .ok (some false))
      else if cmd = "quit" then (st, .ok (some true))
      else if cmd = "finbrain" then call_finbrain prov st
      else if cmd = "ta" then call_ta prov st other_args
      else if cmd = "load" then call_load prov st other_args
      else if cmd = "clear" then call_clear st
      else if cmd = "chart" then call_chart prov st other_args
      else if cmd = "dd" then call_dd prov st
      else if cmd = "ov" then subMenu st prov.ovMenuRet
      else if cmd = "disc" then subMenu st prov.discMenuRet
      else (st, .error .typeError)

/-- What becomes of a menu loop driven by a finite list of input lines:
it returns a value to its caller, an uncaught exception escapes it (the
process dies, since nothing above these menus catches either), or the
supplied input is exhausted with the loop still prompting. -/
inductive MenuOutcome (σ : Type)
  | returned (b : Bool)
  | crashed (st : σ) (e : PyExc)
  | exhausted (st : σ)
deriving DecidableEq, Repr

/-- The `while True` loop shared verbatim by `crypto_controller.menu` and
`dd_controller.menu`: read a line, run `switch` guarded only by
`except SystemExit` (print "The command selected doesn't exist" and
continue); return `process_input` as soon as it is not `None`. -/
def menuLoop {σ : Type} (switchFn : σ → String → σ × Except PyExc (Option Bool)) :
    σ → List String → MenuOutcome σ
  | st, [] => .exhausted st
  | st, line :: rest =>
    match switchFn st line with
    | (st2, .ok none) => menuLoop switchFn st2 rest
    | (_, .ok (some b)) => .returned b
    | (st2, .error .systemExit) => menuLoop switchFn st2 rest
    | (st2, .error e) => .crashed st2 e

/-! ## CoinPaprika table views (coinpaprika_view.py)

Each view takes the provider fetch result as an oracle argument and
returns the row sequence it would hand to the external `tabulate`
renderer: `ok (some rows)` when a table is printed, `ok none` when the
view bails out with only a message (help requested, empty result, or an
`Exception` caught by its blanket handler), and `error systemExit` when
argparse aborts the parse — `SystemExit` is not an `Exception`, so it
escapes these views. -/

/-- `"".join(i if ord(i) < 128 else "" for i in text)` — the unicode
stripping `twitter` applies to the `status` column. -/
def asciiFilter (s : String) : String :=
  String.mk (s.toList.filter (fun c => c.toNat < 128))

/-- The cell function of that `apply`: iterating a non-string cell raises
`TypeError` (caught by the view's `except Exception`). -/
def asciiCell : PyVal → Except PyExc PyVal
  | .vStr s => .ok (.vStr (asciiFilter s))
  | _ => .error .typeError

def twitterSortChoices : List String :=
  ["date", "user_name", "status", "retweet_count", "like_count"]

def twitterSpec : ArgSpec :=
  { hasTop := true, sortChoices := some twitterSortChoices, hasDescend := true,
    hasLinks := false, vsChoices := none, hasDays := false }

def twitterDefaults : ViewOpts :=
  { top := 10, sortby := "date", descend := false, links := false,
    vs := "", days := 0 }

/-- The sort-then-strip stage of `twitter`:
`df.sort_values(by=sortby, ascending=descend)` followed by the ascii
filter on `status`.  Note the source passes the `--descend` flag value
directly as `ascending`. -/
def twitterProcessed (df : Table) (o : ViewOpts) : Except PyExc Table := do
  let sorted ← df.sortValues o.sortby o.descend
  sorted.mapCol "status" asciiCell

/-- `coinpaprika_view.twitter(coin_id, other_args)` with the timeline
fetch as oracle; prints `df.head(ns_parser.top)` of the processed
frame. -/
def twitterView (fetch : Except PyExc Table) (args : List String) :
    Except PyExc (Option (List (List PyVal))) :=
  match parseView twitterSpec twitterDefaults args with
  | .error e => .error e
  | .ok none => .ok none
  | .ok (some o) =>
    match fetch with
    | .error _ => .ok none
    | .ok df =>
      if df.rows.isEmpty then .ok none
      else
        match twitterProcessed df o with
        | .error _ => .ok none
        | .ok proc => .ok (some (proc.rows.take o.top))

def exchangesSortChoices : List String :=
  ["id", "name", "adjusted_volume_24h_share", "fiats"]

def exchangesSpec : ArgSpec :=
  { hasTop := true, sortChoices := some exchangesSortChoices,
    hasDescend := true, hasLinks := false, vsChoices := none, hasDays := false }

def exchangesDefaults : ViewOpts :=
  { top := 10, sortby := "adjusted_volume_24h_share", descend := false,
    links := false, vs := "", days := 0 }

/-- `coinpaprika_view.exchanges(coin_id, other_args)` with the exchange
fetch as oracle: sort by the chosen column with
`ascending=ns_parser.descend`, then print the first `top` rows. -/
def exchangesView (fetch : Except PyExc Table) (args : List String) :
    Except PyExc (Option (List (List PyVal))) :=
  match parseView exchangesSpec exchangesDefaults args with
  | .error e => .error e
  | .ok none => .ok none
  | .ok (some o) =>
    match fetch with
    | .error _ => .ok none
    | .ok df =>
      if df.rows.isEmpty then .ok none
      else
        match df.sortValues o.sortby o.descend with
        | .error _ => .ok none
        | .ok sorted => .ok (some (sorted.rows.take o.top))

def eventsSortChoices : List String :=
  ["date", "date_to", "name", "description", "is_conference"]

def eventsSpec : ArgSpec :=
  { hasTop := true, sortChoices := some eventsSortChoices, hasDescend := true,
    hasLinks := true, vsChoices := none, hasDays := false }

def eventsDefaults : ViewOpts :=
  { top := 10, sortby := "date", descend := false, links := false,
    vs := "", days := 0 }

/-- `coinpaprika_view.events(coin_id, other_args)`: sort, then either keep
only `date, name, link` (with `--links`) or drop the `link` column, and
print the first `top` rows. -/
def eventsView (fetch : Except PyExc Table) (args : List String) :
    Except PyExc (Option (List (List PyVal))) :=
  match parseView eventsSpec eventsDefaults args with
  | .error e => .error e
  | .ok none => .ok none
  | .ok (some o) =>
    match fetch with
    | .error _ => .ok none
    | .ok df =>
      if df.rows.isEmpty then .ok none
      else
        match (do
          let sorted ← df.sortValues o.sortby o.descend
          if o.links then sorted.selectCols ["date", "name", "link"]
          else sorted.dropCol "link") with
        | .error _ => .ok none
        | .ok cut => .ok (some (cut.rows.take o.top))

/-- The module-level `CURRENCIES` quote-currency choices list. -/
def CURRENCIES : List String :=
  ["BTC", "ETH", "USD", "EUR", "PLN", "KRW", "GBP", "CAD", "JPY", "RUB",
   "TRY", "NZD", "AUD", "CHF", "UAH", "HKD", "SGD", "NGN", "PHP", "MXN",
   "BRL", "THB", "CLP", "CNY", "CZK", "DKK", "HUF", "IDR", "ILS", "INR",
   "MYR", "NOK", "PKR", "SEK", "TWD", "ZAR", "VND", "BOB", "COP", "PEN",
   "ARS", "ISK"]

def marketsSortChoices : List String :=
  ["pct_volume_share", "exchange", "pair", "trust_score", "volume", "price"]

def marketsSpec : ArgSpec :=
  { hasTop := true, sortChoices := some marketsSortChoices, hasDescend := true,
    hasLinks := true, vsChoices := some CURRENCIES, hasDays := false }

def marketsDefaults : ViewOpts :=
  { top := 20, sortby := "pct_volume_share", descend := false, links := false,
    vs := "USD", days := 0 }

/-- `coinpaprika_view.markets(coin_id, other_args)`: a `volume` or `price`
sort key is first rewritten to the quote-currency column
`f"{vs.lower()}_{sort}"`; then sort, keep or drop the URL column, and
print the first `top` rows. -/
def marketsView (fetch : String → Except PyExc Table) (args : List String) :
    Except PyExc (Option (List (List PyVal))) :=
  match parseView marketsSpec marketsDefaults args with
  | .error e => .error e
  | .ok none => .ok none
  | .ok (some o) =>
    let sortKey :=
      if o.sortby ∈ (["volume", "price"] : List String) then
        strToLower o.vs ++ "_" ++ o.sortby
      else o.sortby
    match fetch o.vs with
    | .error _ => .ok none
    | .ok df =>
      if df.rows.isEmpty then .ok none
      else
        match (do
          let sorted ← df.sortValues sortKey o.descend
          if o.links then
            sorted.selectCols ["exchange", "pair", "trust_score", "market_url"]
          else sorted.dropCol "market_url") with
        | .error _ => .ok none
        | .ok cut => .ok (some (cut.rows.take o.top))

/-- Modelled from the spec: the Presentation cell formatter
`cryptocurrency_helpers.long_number_format_with_type_check` (repository
code outside these sources) — "pure formatting, no decisions", so the
identity suffices for every property stated here. -/
def longNumberFormatWithTypeCheck (v : PyVal) : PyVal := v

def psSpec : ArgSpec :=
  { hasTop := false, sortChoices := none, hasDescend := false,
    hasLinks := false, vsChoices := some CURRENCIES, hasDays := false }

def psDefaults : ViewOpts :=
  { top := 0, sortby := "", descend := false, links := false,
    vs := "USD", days := 0 }

/-- `coinpaprika_view.price_supply(coin_id, other_args)`: fetch the ticker
frame for the quote currency, format every cell, print all rows. -/
def psView (fetch : String → Except PyExc Table) (args : List String) :
    Except PyExc (Option (List (List PyVal))) :=
  match parseView psSpec psDefaults args with
  | .error e => .error e
  | .ok none => .ok none
  | .ok (some o) =>
    match fetch o.vs with
    | .error _ => .ok none
    | .ok df =>
      if df.rows.isEmpty then .ok none
      else .ok (some (df.rows.map (·.map longNumberFormatWithTypeCheck)))

def basicSpec : ArgSpec :=
  { hasTop := false, sortChoices := none, hasDescend := false,
    hasLinks := false, vsChoices := none, hasDays := false }

/-- `coinpaprika_view.basic(coin_id, other_args)`: no options beyond the
helper's `-h`; prints the whole fetched frame. -/
def basicView (fetch : Except PyExc Table) (args : List String) :
    Except PyExc (Option (List (List PyVal))) :=
  match parseView basicSpec psDefaults args with
  | .error e => .error e
  | .ok none => .ok none
  | .ok (some _) =>
    match fetch with
    | .error _ => .ok none
    | .ok df =>
      if df.rows.isEmpty then .ok none
      else .ok (some df.rows)

/-- The options record of `coinpaprika_view.coins`: `-s/skip` (positive,
default 0), `-t/top` (positive, default 30), `-l/letter`, and `-k/key`
with choices `id`, `symbol`, `name` (default `symbol`). -/
structure CoinsOpts where
  skip : ℕ
  top : ℕ
  letter : Option String
  key : String
deriving DecidableEq, Repr

def scanCoins : List String → CoinsOpts → Except PyExc CoinsOpts
  | [], o => .ok o
  | [t], o =>
    if t ∈ (["-s", "--skip", "-t", "--top", "-l", "--letter", "-k", "--key"] :
        List String) then
      .error .systemExit
    else .ok o
  | t :: v :: rest, o =>
    if t == "-s" || t == "--skip" then
      match parsePositive v with
      | some n => scanCoins rest { o with skip := n }
      | none => .error .systemExit
    else if t == "-t" || t == "--top" then
      match parsePositive v with
      | some n => scanCoins rest { o with top := n }
      | none => .error .systemExit
    else if t == "-l" || t == "--letter" then
      if isOptionLike v then .error .systemExit
      else scanCoins rest { o with letter := some v }
    else if t == "-k" || t == "--key" then
      if v ∈ (["id", "symbol", "name"] : List String) then
        scanCoins rest { o with key := v }
      else .error .systemExit
    else scanCoins (v :: rest) o

/-- `df[key].str.match(f"^({letter.lower()}|{letter.upper()})")`: a string
cell matches when it starts with the lower- or upper-cased letter; a
non-string cell never matches. -/
def letterMatch (letter : String) (v : PyVal) : Bool :=
  match v with
  | .vStr s => strStartsWith s (strToLower letter) || strStartsWith s (strToUpper letter)
  | _ => false

/-- `coinpaprika_view.coins(other_args)` with the coin-list fetch as
oracle: optional first-letter filter on the chosen key column, then the
positional row slice `df[skip : skip + top]`. -/
def coinsView (fetch : Except PyExc Table) (args : List String) :
    Except PyExc (Option (List (List PyVal))) :=
  if args.contains "-h" then .ok none
  else
    match scanCoins args { skip := 0, top := 30, letter := none, key := "symbol" } with
    | .error e => .error e
    | .ok o =>
      match fetch with
      | .error _ => .ok none
      | .ok df =>
        match o.letter with
        | none => .ok (some ((df.rows.drop o.skip).take o.top))
        | some l =>
          match df.cols.findIdx? (· == o.key) with
          | none => .ok none
          | some keyIdx =>
            let filtered :=
              df.rows.filter (fun r => letterMatch l (r.getD keyIdx .vNone))
            .ok (some ((filtered.drop o.skip).take o.top))

/-! ## The due-diligence controller (dd_controller.py) -/

/-- `Controller.CHOICES` as written in the class body — a *class-level*
list, shared by every instance. -/
def DD_CHOICES : List String := ["?", "cls", "help", "q", "quit", "finbrain"]

def PAPRIKA_CHOICES : List String :=
  ["events", "twitter", "ex", "mkt", "ta", "ps", "basic"]

def GECKO_CHOICES : List String :=
  ["info", "market", "ath", "atl", "score", "web", "social", "bc", "dev"]

def BINANCE_CHOICES : List String := ["book", "candle", "balance"]

/-- `Controller.__init__`'s effect on the class-level `CHOICES` list:
`self.CHOICES.extend(...)` resolves to the class attribute and mutates it
in place, so the updated list is the input of the *next* construction.
The function returns the class attribute after the constructor ran; the
instance's `argparse` positional is registered with (a reference to) this
very list. -/
def ddInitChoices (classChoices : List String) (source : String) : List String :=
  let c := if source = "cg" then classChoices ++ GECKO_CHOICES else classChoices
  let c := if source = "cp" then c ++ PAPRIKA_CHOICES else c
  if source = "bin" then c ++ BINANCE_CHOICES else c

/-- The instance fields set by `Controller.__init__`. -/
def ddInitState (coin : PyVal) (source : String) : SessionState :=
  { current_coin := coin, current_df := some emptyTable,
    current_currency := .vNone, source := .vStr source }

/-- External collaborators of the due-diligence controller: the CoinPaprika
fetches feeding the embedded views, and the CoinGecko / Binance /
FinBrain calls that are entirely out-of-source. -/
structure DdProviders where
  /-- `paprika.get_coin_twitter_timeline(coin_id)`. -/
  twitterFetch : Except PyExc Table
  /-- `paprika.get_coin_events_by_id(coin_id)`. -/
  eventsFetch : Except PyExc Table
  /-- `paprika.get_coin_exchanges_by_id(coin_id)`. -/
  exchangesFetch : Except PyExc Table
  /-- `paprika.get_coin_markets_by_id(coin_id, vs)`. -/
  marketsFetch : String → Except PyExc Table
  /-- `paprika.get_tickers_info_for_coin(coin_id, vs)`. -/
  psFetch : String → Except PyExc Table
  /-- `paprika.basic_coin_info(coin_id)`. -/
  basicFetch : Except PyExc Table
  /-- Effect of the nine `pycoingecko_view` detail views. -/
  geckoView : Except PyExc Unit
  /-- Effect of `binance_model.order_book(...)`. -/
  binanceBook : Except PyExc Unit
  /-- Effect of `binance_model.balance(...)`. -/
  binanceBalance : Except PyExc Unit
  /-- Effect of `finbrain_crypto_view.crypto_sentiment_analysis(...)`. -/
  finbrainView : Except PyExc Unit

/-- Running a view (or external call) for its output only: the handler
returns `None` unless the view let an exception (in these views only
`SystemExit`) escape. -/
def viewEffect {α : Type} (st : SessionState) (r : Except PyExc α) :
    SessionState × Except PyExc (Option Bool) :=
  match r with
  | .ok _ => (st, .ok none)
  | .error e => (st, .error e)

/-- `Controller.switch(an_input)` of dd_controller.py.  `choices` is the
(shared, possibly already extended) class-level `CHOICES` the instance's
parser was registered with.  Every CoinPaprika handler guards on
`self.current_coin`; `call_book` and `call_balance` do not.  `CHOICES`
can contain `ta` and `candle` (from `PAPRIKA_CHOICES` and
`BINANCE_CHOICES`) even though the class defines no `call_ta` or
`call_candle`, in which case `getattr`'s zero-argument fallback lambda is
called with `other_args` and raises `TypeError`. -/
def ddSwitch (choices : List String) (ddp : DdProviders) (st : SessionState)
    (an_input : String) : SessionState × Except PyExc (Option Bool) :=
  if an_input = "" then (st, .ok none)
  else
    match parseCmdToken choices (tokenize an_input) with
    | .error e => (st, .error e)
    | .ok (cmd, other_args) =>
      if cmd = "?" then (st, .ok none)
      else if cmd = "cls" then (st, .ok none)
      else if cmd = "help" then (st, .ok none)
      else if cmd = "q" then (st, .ok (some false))
      else if cmd = "quit" then (st, .ok (some true))
      else if cmd = "finbrain" then viewEffect st ddp.finbrainView
      else if cmd ∈ GECKO_CHOICES then
        if st.current_coin.truthy then viewEffect st ddp.geckoView
        else (st, .ok none)
      else if cmd = "book" then viewEffect st ddp.binanceBook
      else if cmd = "balance" then viewEffect st ddp.binanceBalance
      else if cmd = "ps" then
        if st.current_coin.truthy then
          viewEffect st (psView ddp.psFetch other_args)
        else (st, .ok none)
      else if cmd = "basic" then
        if st.current_coin.truthy then
          viewEffect st (basicView ddp.basicFetch other_args)
        else (st, .ok none)
      else if cmd = "mkt" then
        if st.current_coin.truthy then
          viewEffect st (marketsView ddp.marketsFetch other_args)
        else (st, .ok none)
      else if cmd = "ex" then
        if st.current_coin.truthy then
          viewEffect st (exchangesView ddp.exchangesFetch other_args)
        else (st, .ok none)
      else if cmd = "events" then
        if st.current_coin.truthy then
          viewEffect st (eventsView ddp.eventsFetch other_args)
        else (st, .ok none)
      else if cmd = "twitter" then
        if st.current_coin.truthy then
          viewEffect st (twitterView ddp.twitterFetch other_args)
        else (st, .ok none)
      else (st, .error .typeError)

/-- `dd_controller.menu(coin, source)`: defaults a falsy source to `cg`,
constructs the `Controller` (extending the shared class `CHOICES` it
receives) and runs the same read-dispatch loop as the crypto menu. -/
def ddMenu (classChoices : List String) (ddp : DdProviders) (coin : PyVal)
    (source : String) (lines : List String) : MenuOutcome SessionState :=
  let src := if source = "" then "cg" else source
  menuLoop (ddSwitch (ddInitChoices classChoices src) ddp) (ddInitState coin src)
    lines

/-! ## DeFi-rate helpers (defirate_view.py) -/

/-- The value of a Python `float`: a finite value (its exact decimal
literal value standing for the IEEE double), positive or negative
infinity, or nan. -/
inductive PyFloat
  | finite (q : ℚ)
  | inf
  | negInf
  | nan
deriving DecidableEq, Repr

/-- A cell value produced by `replace_pct`: either the string passed
through, or the `float` obtained from a percentage. -/
inductive DVal
  | str (s : String)
  | num (v : PyFloat)
deriving DecidableEq, Repr

/-- The first code points of the Unicode decimal-digit (category `Nd`)
ranges, each a run of ten with digit values `0..9` (Unicode 13, the
CPython 3.9 era of this repository).  `float()` maps these to the ASCII
digits before parsing. -/
def ndRangeStarts : List ℕ :=
  [0x0030, 0x0660, 0x06F0, 0x07C0, 0x0966, 0x09E6, 0x0A66, 0x0AE6, 0x0B66,
   0x0BE6, 0x0C66, 0x0CE6, 0x0D66, 0x0DE6, 0x0E50, 0x0ED0, 0x0F20, 0x1040,
   0x1090, 0x17E0, 0x1810, 0x1946, 0x19D0, 0x1A80, 0x1A90, 0x1B50, 0x1BB0,
   0x1C40, 0x1C50, 0xA620, 0xA8D0, 0xA900, 0xA9D0, 0xA9F0, 0xAA50, 0xABF0,
   0xFF10, 0x104A0, 0x10D30, 0x11066, 0x110F0, 0x11136, 0x111D0, 0x112F0,
   0x11450, 0x114D0, 0x11650, 0x116C0, 0x11730, 0x118E0, 0x11950, 0x11C50,
   0x11D50, 0x11DA0, 0x16A60, 0x16B50, 0x1D7CE, 0x1D7D8, 0x1D7E2, 0x1D7EC,
   0x1D7F6, 0x1E140, 0x1E2F0, 0x1E950, 0x1FBF0]

/-- The decimal value of a Unicode `Nd` digit. -/
def decDigitVal? (c : Char) : Option ℕ :=
  let n := c.toNat
  match ndRangeStarts.find? (fun s => s ≤ n && n ≤ s + 9) with
  | some s => some (n - s)
  | none => none

/-- CPython's `_PyUnicode_TransformDecimalAndSpaceToASCII`, applied by
`float()` before parsing: every Unicode decimal digit becomes the
corresponding ASCII digit and every Unicode whitespace a plain space. -/
def pyTransformChar (c : Char) : Char :=
  match decDigitVal? c with
  | some d => Char.ofNat (48 + d)
  | none => if isSpaceChar c then ' ' else c

/-- PEP 515: an underscore is allowed only directly between two digits
(`float("1_0") = 10.0`, while `_1`, `1_`, `1__0`, `1_.0` ... all raise
`ValueError`).  `prev` is the character before the current position. -/
def underscoresOkAux : Option Char → List Char → Bool
  | _, [] => true
  | prev, '_' :: rest =>
    (match prev with
     | some p => p.isDigit
     | none => false) &&
    (match rest with
     | r :: _ => r.isDigit
     | [] => false) &&
    underscoresOkAux (some '_') rest
  | _, c :: rest => underscoresOkAux (some c) rest

def underscoresOk (cs : List Char) : Bool := underscoresOkAux none cs

def stripUnderscores (cs : List Char) : List Char := cs.filter (· ≠ '_')

/-- `digits [ "." digits ]` with at least one digit overall, as an exact
rational. -/
def parseMantissa (m : List Char) : Option ℚ :=
  match splitOnChar '.' m with
  | [i] => if i ≠ [] && allDigits i then some (natOfDigits i) else none
  | [i, f] =>
    if (i ≠ [] || f ≠ []) && allDigits i && allDigits f then
      some ((natOfDigits i : ℚ) + (natOfDigits f : ℚ) / (10 : ℚ) ^ f.length)
    else none
  | _ => none

/-- `[ sign ] digits` for a float exponent. -/
def parseExp (e : List Char) : Option ℤ :=
  match e with
  | '-' :: d => if d ≠ [] && allDigits d then some (-(natOfDigits d : ℤ)) else none
  | '+' :: d => if d ≠ [] && allDigits d then some ((natOfDigits d : ℤ)) else none
  | d => if d ≠ [] && allDigits d then some ((natOfDigits d : ℤ)) else none

/-- Python's `float(s)` on strings: Unicode digits and spaces are first
mapped to ASCII, surrounding whitespace is stripped, then an optional
sign followed by `inf`/`infinity`/`nan` (case-insensitive) or by a
decimal mantissa with optional exponent, with PEP 515 underscores
permitted between digits; anything else raises `ValueError` (modelled as
`none`). -/
def pyFloat? (s : String) : Option PyFloat :=
  let cs := (trimChars (s.data.map pyTransformChar)).map Char.toLower
  let sgnBody : Bool × List Char :=
    match cs with
    | '-' :: rest => (true, rest)
    | '+' :: rest => (false, rest)
    | _ => (false, cs)
  let neg := sgnBody.1
  let body := sgnBody.2
  if body = ['i', 'n', 'f'] ∨ body = ['i', 'n', 'f', 'i', 'n', 'i', 't', 'y'] then
    some (if neg then .negInf else .inf)
  else if body = ['n', 'a', 'n'] then some .nan
  else if underscoresOk body then
    match splitOnChar 'e' (stripUnderscores body) with
    | [m] => (parseMantissa m).map (fun q => .finite (if neg then -q else q))
    | [m, e] => do
      let mv ← parseMantissa m
      let ev ← parseExp e
      some (.finite ((if neg then -mv else mv) * (10 : ℚ) ^ ev))
    | _ => none
  else none

/-- `x.replace("%", "")` — for the one-character pattern this removes
every `%`. -/
def removePct (x : String) : String :=
  String.mk (x.data.filter (fun c => c ≠ '%'))

/-- `defirate_view.replace_pct(x)` on a string cell: the en-dash
placeholder becomes the empty string; a value ending in `%` has every `%`
removed and is converted with `float(...)` (so a malformed remainder
raises `ValueError`); anything else passes through unchanged. -/
def replace_pct (x : String) : Except PyExc DVal :=
  if x = "–" then .ok (.str "")
  else if strEndsWith x "%" then
    match pyFloat? (removePct x) with
    | some q => .ok (.num q)
    | none => .error .valueError
  else .ok (.str x)

/-! ## Concrete fixtures

Sample oracle instantiations and tables used to witness and to refute the
specification claims on explicit inputs. -/

/-- A well-behaved provider world: every upstream call succeeds, every
sub-menu returns "pop one level". -/
def provTriv : Providers :=
  { geckoCoin := fun _ => .ok (.vCoinObj "btc"),
    binanceSelect := fun _ => .ok (.vStr "BTC", .vStr "USDT", .vObj "df"),
    paprikaValidate := fun _ => .ok (.vStr "btc-bitcoin", .vStr "BTC"),
    geckoTa := fun _ => .ok (none, .vNone),
    binanceTa := fun _ => .ok (.vStr "BTC", .vStr "", emptyTable),
    paprikaOhlc := fun _ _ _ => .ok emptyTable,
    taMenu := .ok false, ddMenuRet := .ok false, ovMenuRet := .ok false,
    discMenuRet := .ok false, geckoChart := .ok (), binanceChart := .ok (),
    finbrainView := .ok () }

/-- A provider world whose CoinGecko resolution raises `KeyError`
(identifier matches no coin). -/
def provFail : Providers :=
  { provTriv with geckoCoin := fun _ => .error .keyError }

/-- A provider world whose CoinGecko ta fetch returns a one-row price
frame quoted in `usd`. -/
def provTa : Providers :=
  { provTriv with
    geckoTa := fun _ => .ok (some ⟨["price"], [[.vNum 1]]⟩, .vStr "usd") }

/-- A provider world whose due-diligence sub-menu ends with `quit`. -/
def provDD : Providers := { provTriv with ddMenuRet := .ok true }

/-- A session with a CoinGecko coin loaded. -/
def st0 : SessionState :=
  { current_coin := .vCoinObj "bitcoin", current_df := some emptyTable,
    current_currency := .vNone, source := .vStr "cg" }

/-- A due-diligence oracle world where every upstream call succeeds with
an empty table. -/
def ddpTriv : DdProviders :=
  { twitterFetch := .ok emptyTable, eventsFetch := .ok emptyTable,
    exchangesFetch := .ok emptyTable, marketsFetch := fun _ => .ok emptyTable,
    psFetch := fun _ => .ok emptyTable, basicFetch := .ok emptyTable,
    geckoView := .ok (), binanceBook := .ok (), binanceBalance := .ok (),
    finbrainView := .ok () }

/-- A two-exchange listing with distinct `adjusted_volume_24h_share`
values (a unique sort key). -/
def exDf : Table :=
  ⟨["id", "name", "adjusted_volume_24h_share", "fiats"],
   [[.vStr "binance", .vStr "Binance", .vNum 60, .vNum 30],
    [.vStr "kraken", .vStr "Kraken", .vNum 20, .vNum 40]]⟩

/-- A two-tweet timeline with distinct dates. -/
def twDf : Table :=
  ⟨["date", "status"],
   [[.vStr "2021-01-02", .vStr "hi"], [.vStr "2021-01-01", .vStr "yo"]]⟩

/-- The options `twitter -t 1` parses to. -/
def twOpts : ViewOpts :=
  { top := 1, sortby := "date", descend := false, links := false,
    vs := "", days := 0 }

/-- `twDf` sorted by date with `ascending=False` and ascii-filtered. -/
def twProc : Table :=
  ⟨["date", "status"],
   [[.vStr "2021-01-02", .vStr "hi"], [.vStr "2021-01-01", .vStr "yo"]]⟩

/-! ## Helper lemmas -/

/-- Every branch of `load` returns a 4-element tuple. -/
lemma load_length (prov : Providers) (args : List String) :
    (load prov args).length = 4 := by
  simp only [load]
  repeat' split
  all_goals rfl

lemma unpack2_of_length_four {l : List PyVal} (h : l.length = 4) :
    unpack2 l = .error .valueError := by
  match l, h with
  | [a, b, c, d], _ => rfl

/-- Unpacking `load`'s 4-tuple into the two targets of `call_load` raises
`ValueError`, which the `except TypeError` clause does not catch, so
`call_load` always propagates `ValueError` with the state untouched. -/
lemma call_load_eq (prov : Providers) (st : SessionState) (args : List String) :
    call_load prov st args = (st, .error .valueError) := by
  unfold call_load
  rw [unpack2_of_length_four (load_length prov args)]

lemma switch_load_line (prov : Providers) (st : SessionState) :
    cryptoSwitch prov st "load -c bitcoin" = call_load prov st ["-c", "bitcoin"] :=
  rfl

lemma menu_load_crash (prov : Providers) (st : SessionState) (rest : List String) :
    menuLoop (cryptoSwitch prov) st ("load -c bitcoin" :: rest) =
      .crashed st .valueError := by
  have h : cryptoSwitch prov st "load -c bitcoin" = (st, .error .valueError) := by
    rw [switch_load_line]; exact call_load_eq prov st ["-c", "bitcoin"]
  simp [menuLoop, h]

/-- An accepted command token is a member of the `choices` list. -/
lemma parseCmdToken_mem {choices tokens : List String} {c : String}
    {rest : List String} (h : parseCmdToken choices tokens = .ok (c, rest)) :
    c ∈ choices := by
  unfold parseCmdToken at h
  cases hs : splitCmd tokens with
  | none => rw [hs] at h; exact absurd h (by simp)
  | some p =>
    obtain ⟨c', rest'⟩ := p
    rw [hs] at h
    dsimp only at h
    by_cases hm : c' ∈ choices
    · rw [if_pos hm] at h
      cases h
      exact hm
    · rw [if_neg hm] at h
      exact absurd h (by simp)

lemma subMenu_fst (st : SessionState) (r : Except PyExc Bool) :
    (subMenu st r).1 = st := by
  unfold subMenu; split <;> rfl

lemma call_finbrain_fst (prov : Providers) (st : SessionState) :
    (call_finbrain prov st).1 = st := by
  unfold call_finbrain; split <;> rfl

lemma call_chart_fst (prov : Providers) (st : SessionState) (args : List String) :
    (call_chart prov st args).1 = st := by
  unfold call_chart
  repeat' split
  all_goals rfl

lemma call_dd_fst (prov : Providers) (st : SessionState) :
    (call_dd prov st).1 = st := by
  unfold call_dd
  split
  · exact subMenu_fst st prov.ddMenuRet
  · rfl

/-! ## Claim theorems -/

/-- Claim C1: contrary to the specification, the crypto controller's
`load` command *always* terminates the program.  `load` in `__init__.py`
returns a 4-tuple on every path, `call_load` unpacks it into two targets,
and the resulting `ValueError` is caught neither by `call_load`'s
`except TypeError` nor by the menu loop's `except SystemExit`: for every
provider behaviour, session state and argument list, `call_load` raises
`ValueError` out of the command boundary, and a `load` input line crashes
the menu loop instead of continuing. -/
theorem load_command_crashes_the_menu (prov : Providers) (st : SessionState) :
    (∀ args, call_load prov st args = (st, .error .valueError)) ∧
    (∀ rest, menuLoop (cryptoSwitch prov) st ("load -c bitcoin" :: rest) =
      .crashed st .valueError) :=
  ⟨fun args => call_load_eq prov st args, fun rest => menu_load_crash prov st rest⟩

/-- `load` resolved no coin: the coin slot of the returned 4-tuple is
falsy.  This covers every failure path of every provider, whether or not
the tuple carries a source tag: argparse errors, the CoinGecko `KeyError`
and any other exception yield `(None, None, None, None)`; the CoinPaprika
fuzzy match resolving nothing yields `(None, None, None, "cp")` (the
`cp` branch tags the tuple with `ns_parser.source` even on failure); a
Binance selection that resolved no coin keeps its `"bin"` tag the same
way. -/
def resolutionFailed (prov : Providers) (args : List String) : Prop :=
  ((load prov args).headD .vNone).truthy = false

/-- Claim C2: when provider resolution fails — not-found (including the
source-tagged CoinPaprika and Binance failure tuples), empty result, or
any exception — executing the `load` command leaves every session-state
field exactly as it was: the `ValueError` from unpacking the 4-tuple is
raised before either assignment target is stored. -/
theorem load_failure_preserves_session (prov : Providers) (st : SessionState)
    (args : List String) (hfail : resolutionFailed prov args) :
    (call_load prov st args).1.current_coin = st.current_coin ∧
    (call_load prov st args).1.current_currency = st.current_currency ∧
    (call_load prov st args).1.current_df = st.current_df ∧
    (call_load prov st args).1.source = st.source := by
  rw [call_load_eq prov st args]
  exact ⟨rfl, rfl, rfl, rfl⟩

/-- A provider world whose CoinPaprika fuzzy match resolves nothing
(`validate_coin` returns a falsy coin id). -/
def provCpFail : Providers :=
  { provTriv with paprikaValidate := fun _ => .ok (.vNone, .vNone) }

theorem load_failure_preserves_session_witness :
    resolutionFailed provCpFail ["-c", "fakecoin", "--source", "cp"] ∧
    load provCpFail ["-c", "fakecoin", "--source", "cp"] =
      [.vNone, .vNone, .vNone, .vStr "cp"] ∧
    (call_load provCpFail initCryptoState
      ["-c", "fakecoin", "--source", "cp"]).1.current_coin =
      initCryptoState.current_coin ∧
    resolutionFailed provFail ["-c", "fakecoin"] ∧
    (call_load provFail initCryptoState ["-c", "fakecoin"]).1.source =
      initCryptoState.source :=
  ⟨by unfold resolutionFailed; decide,
   by decide,
   (load_failure_preserves_session provCpFail initCryptoState
     ["-c", "fakecoin", "--source", "cp"]
     (by unfold resolutionFailed; decide)).1,
   by unfold resolutionFailed; decide,
   (load_failure_preserves_session provFail initCryptoState ["-c", "fakecoin"]
     (by unfold resolutionFailed; decide)).2.2.2⟩

/-- Claim C3, counterexample: the input line `-x quit` has first token
`-x`, which is not in `CHOICES`; yet processing it does not print-and-
continue — argparse hands `-x` back as a leftover, resolves the `cmd`
positional to `quit`, and the menu loop returns `True`, exiting the whole
program. -/
theorem unknown_first_token_can_exit :
    "-x" ∉ CHOICES ∧
    tokenize "-x quit" = ["-x", "quit"] ∧
    menuLoop (cryptoSwitch provTriv) initCryptoState ["-x quit"] =
      .returned true := by
  refine ⟨by decide, by decide, by decide⟩

/-- Claim C3, amended: for every input line whose first token does not
begin with `-` and is not in `CHOICES`, `switch` raises `SystemExit`
(argparse's invalid-choice error) with the state unchanged, the loop
catches it, prints the message, and continues with the next line. -/
theorem unknown_command_token_continues (prov : Providers) (st : SessionState)
    (line t : String) (ts : List String)
    (htok : tokenize line = t :: ts)
    (hdash : strStartsWith t "-" = false)
    (hmem : t ∉ CHOICES) :
    cryptoSwitch prov st line = (st, .error .systemExit) ∧
    ∀ rest, menuLoop (cryptoSwitch prov) st (line :: rest) =
      menuLoop (cryptoSwitch prov) st rest := by
  have hne : line ≠ "" := by
    intro h
    rw [h, (rfl : tokenize "" = [])] at htok
    exact List.noConfusion htok
  have hopt : isOptionLike t = false := by
    unfold isOptionLike
    rw [hdash]
    rfl
  have hsw : cryptoSwitch prov st line = (st, .error .systemExit) := by
    unfold cryptoSwitch
    rw [if_neg hne, htok]
    unfold parseCmdToken splitCmd
    rw [hopt]
    simp only [Bool.false_eq_true, if_false]
    rw [if_neg hmem]
  refine ⟨hsw, fun rest => ?_⟩
  simp [menuLoop, hsw]

theorem unknown_command_token_continues_witness :
    cryptoSwitch provTriv initCryptoState "foo" =
      (initCryptoState, .error .systemExit) ∧
    menuLoop (cryptoSwitch provTriv) initCryptoState ["foo", "q"] =
      .returned false := by
  have h := unknown_command_token_continues provTriv initCryptoState "foo" "foo" []
    (by decide) (by decide) (by decide)
  refine ⟨h.1, ?_⟩
  rw [h.2 ["q"]]
  decide

/-- Claim C4: the `--descend` flag is a no-op.  It is declared with
`action="store_false"` *and* `default=False`, so `ascending` is `False`
with or without the flag: on a fixed two-row exchange table with a unique
sort key, rendering without and with `--descend` produces the *same*
(descending) row sequence, which is not the reverse of itself — refuting
the claimed reversal (the `twitter` view declares the flag
identically). -/
theorem descend_flag_is_noop :
    exchangesView (.ok exDf) [] = exchangesView (.ok exDf) ["--descend"] ∧
    exchangesView (.ok exDf) [] =
      .ok (some [[.vStr "binance", .vStr "Binance", .vNum 60, .vNum 30],
                 [.vStr "kraken", .vStr "Kraken", .vNum 20, .vNum 40]]) ∧
    ([[.vStr "binance", .vStr "Binance", .vNum 60, .vNum 30],
      [.vStr "kraken", .vStr "Kraken", .vNum 20, .vNum 40]] :
        List (List PyVal)).reverse ≠
      [[.vStr "binance", .vStr "Binance", .vNum 60, .vNum 30],
       [.vStr "kraken", .vStr "Kraken", .vNum 20, .vNum 40]] := by
  refine ⟨by decide, by decide, by decide⟩

/-- Claim C5, counterexample: `ta` is a command other than `load` and
`clear`, yet executing it on a session with a CoinGecko coin loaded
mutates the session state (`current_df` and `current_currency` are
assigned from the provider's ta result). -/
theorem ta_command_mutates_session :
    "ta" ∉ (["load", "clear"] : List String) ∧
    (cryptoSwitch provTa st0 "ta").1 ≠ st0 := by
  refine ⟨by decide, by decide⟩

/-- Claim C5, amended: every command other than `load`, `clear` *and
`ta`* leaves all four session-state fields unchanged — in particular
`chart` never mutates the provider tag, so a later command still sees the
same coin loaded.  (`ta` must be excluded: `call_ta` assigns the fetched
frame and quote currency, and for Binance even the coin, to the session.) -/
theorem commands_other_than_load_clear_ta_preserve_session
    (prov : Providers) (st : SessionState) (line cmd : String)
    (other : List String)
    (hparse : parseCmdToken CHOICES (tokenize line) = .ok (cmd, other))
    (hcmd : cmd ∉ (["load", "clear", "ta"] : List String)) :
    (cryptoSwitch prov st line).1 = st := by
  have hne : line ≠ "" := by
    intro h
    rw [h, (by decide : parseCmdToken CHOICES (tokenize "") =
      .error .systemExit)] at hparse
    exact Except.noConfusion hparse
  have hmem : cmd ∈ CHOICES := parseCmdToken_mem hparse
  unfold cryptoSwitch
  rw [if_neg hne, hparse]
  fin_cases hmem
  · rfl
  · rfl
  · rfl
  · rfl
  · rfl
  · exact call_finbrain_fst prov st
  · exact absurd (by decide) hcmd
  · exact absurd (by decide) hcmd
  · exact absurd (by decide) hcmd
  · exact call_chart_fst prov st other
  · exact call_dd_fst prov st
  · exact subMenu_fst st prov.ovMenuRet
  · exact subMenu_fst st prov.discMenuRet

theorem commands_preserve_session_witness :
    (cryptoSwitch provTriv st0 "chart").1 = st0 :=
  commands_other_than_load_clear_ta_preserve_session provTriv st0 "chart" "chart"
    [] (by decide) (by decide)

/-- Claim C6: with any coin loaded — whichever of the three providers it
came from — the `clear` command returns the session to empty:
`current_coin` and `current_currency` become `None`, `current_df` an
empty frame, and `source` the empty string. -/
theorem clear_resets_session (prov : Providers) (st : SessionState)
    (hcoin : st.current_coin.truthy = true) :
    cryptoSwitch prov st "clear" =
      ({ current_coin := .vNone, current_df := some emptyTable,
         current_currency := .vNone, source := .vStr "" }, .ok none) := by
  have h : cryptoSwitch prov st "clear" = call_clear st := rfl
  rw [h]
  unfold call_clear
  rw [if_pos hcoin]

theorem clear_resets_session_witness :
    cryptoSwitch provTriv st0 "clear" =
      ({ current_coin := .vNone, current_df := some emptyTable,
         current_currency := .vNone, source := .vStr "" }, .ok none) :=
  clear_resets_session provTriv st0 (by decide)

/-- Claim C7: in both controllers `q` dispatches to the pop-one-level
value `False` and `quit` to the exit-program value `True`; the two are
distinct; any other outcome is `None` and continues; each menu loop
returns exactly the first non-`None` dispatch result, so a sub-menu's
`True` propagates through the enclosing controller (`dd` returning `True`
makes the crypto dispatch return `True` as well). -/
theorem quit_pop_distinct_and_propagates (prov : Providers) (st : SessionState) :
    cryptoSwitch prov st "q" = (st, .ok (some false)) ∧
    cryptoSwitch prov st "quit" = (st, .ok (some true)) ∧
    (∀ (choices : List String) (ddp : DdProviders) (dst : SessionState),
      "q" ∈ choices → ddSwitch choices ddp dst "q" = (dst, .ok (some false))) ∧
    (∀ (choices : List String) (ddp : DdProviders) (dst : SessionState),
      "quit" ∈ choices →
        ddSwitch choices ddp dst "quit" = (dst, .ok (some true))) ∧
    (false : Bool) ≠ true ∧
    (∀ (σ : Type) (sf : σ → String → σ × Except PyExc (Option Bool))
      (s s2 : σ) (line : String) (rest : List String) (b : Bool),
      sf s line = (s2, .ok (some b)) →
        menuLoop sf s (line :: rest) = .returned b) ∧
    (st.current_coin.truthy = true → prov.ddMenuRet = .ok true →
      cryptoSwitch prov st "dd" = (st, .ok (some true))) := by
  refine ⟨rfl, rfl, ?_, ?_, by decide, ?_, ?_⟩
  · intro choices ddp dst hq
    have hp : parseCmdToken choices (tokenize "q") = .ok ("q", []) := by
      unfold parseCmdToken
      rw [(rfl : splitCmd (tokenize "q") = some ("q", []))]
      exact if_pos hq
    unfold ddSwitch
    rw [if_neg (by decide : ¬("q" : String) = ""), hp]
    rfl
  · intro choices ddp dst hq
    have hp : parseCmdToken choices (tokenize "quit") = .ok ("quit", []) := by
      unfold parseCmdToken
      rw [(rfl : splitCmd (tokenize "quit") = some ("quit", []))]
      exact if_pos hq
    unfold ddSwitch
    rw [if_neg (by decide : ¬("quit" : String) = ""), hp]
    rfl
  · intro σ sf s s2 line rest b h
    simp [menuLoop, h]
  · intro hcoin hdd
    have h : cryptoSwitch prov st "dd" = call_dd prov st := rfl
    rw [h]
    unfold call_dd
    rw [if_pos hcoin]
    unfold subMenu
    rw [hdd]

theorem quit_pop_distinct_witness :
    ddSwitch DD_CHOICES ddpTriv st0 "quit" = (st0, .ok (some true)) ∧
    menuLoop (cryptoSwitch provDD) st0 ["dd"] = .returned true := by
  have h := quit_pop_distinct_and_propagates provDD st0
  refine ⟨h.2.2.2.1 DD_CHOICES ddpTriv st0 (by decide), ?_⟩
  exact h.2.2.2.2.2.1 SessionState (cryptoSwitch provDD) st0 st0 "dd" [] true
    (h.2.2.2.2.2.2 (by decide) (by decide))

/-- Claim C8: rendering a non-empty twitter timeline with limit `top`
prints `df.head(top)` of the sorted-and-processed frame — at most `top`
rows, and when `top` is at least the number of rows, all of them
unchanged and in order. -/
theorem limit_truncates_after_sort (args : List String) (df : Table)
    (o : ViewOpts) (proc : Table)
    (hp : parseView twitterSpec twitterDefaults args = .ok (some o))
    (htop : 0 < o.top)
    (hne : df.rows.isEmpty = false)
    (hproc : twitterProcessed df o = .ok proc) :
    twitterView (.ok df) args = .ok (some (proc.rows.take o.top)) ∧
    (proc.rows.take o.top).length ≤ o.top ∧
    (proc.rows.length ≤ o.top → proc.rows.take o.top = proc.rows) := by
  refine ⟨?_, ?_, fun hle => List.take_of_length_le hle⟩
  · unfold twitterView
    rw [hp]
    dsimp only
    rw [hne]
    simp only [Bool.false_eq_true, if_false]
    rw [hproc]
  · rw [List.length_take]
    exact min_le_left _ _

theorem limit_truncates_after_sort_witness :
    twitterView (.ok twDf) ["-t", "1"] = .ok (some (twProc.rows.take 1)) ∧
    (twProc.rows.take 1).length ≤ 1 :=
  have h := limit_truncates_after_sort ["-t", "1"] twDf twOpts twProc
    (by decide) (by decide) (by decide) (by decide)
  ⟨h.1, h.2.1⟩

/-- Claim C9: the due-diligence constructor extends the *class-level*
`CHOICES` in place; after constructing a controller for source `cg` and
then one for source `cp`, the second controller's table (and hence its
`cmd` parser) still accepts every CoinGecko token, and two constructions
with the same source leave duplicate tokens in the table. -/
theorem dd_choices_extended_in_place :
    GECKO_CHOICES.all
      (fun t => (ddInitChoices (ddInitChoices DD_CHOICES "cg") "cp").contains t)
      = true ∧
    parseCmdToken (ddInitChoices (ddInitChoices DD_CHOICES "cg") "cp") ["info"]
      = .ok ("info", []) ∧
    (ddInitChoices (ddInitChoices DD_CHOICES "cg") "cg").count "info" = 2 := by
  refine ⟨by decide, by decide, by decide⟩

/-- Sanity checks of the `float()` model against CPython: PEP 515
underscore grouping, Unicode decimal digits (U+0665, Arabic-Indic five)
and the `inf` spelling all convert rather than raise. -/
lemma replace_pct_underscore_demo :
    replace_pct "1_0%" = .ok (.num (.finite 10)) := by decide

lemma replace_pct_unicode_digit_demo :
    replace_pct "٥%" = .ok (.num (.finite 5)) := by decide

lemma replace_pct_inf_demo : replace_pct "inf%" = .ok (.num .inf) := by decide

end GT
